import Mathlib

/-
Verification of the registration flow and AI completion client of
`bot_ads.py` (a Telegram study-assistant bot).

The Python source is shallowly embedded: each handler becomes a pure
function from its inputs (message text, sender id, per-user session data,
database contents) to its outputs (replies sent, updated session data,
updated database, next conversation state).  Python string operations
(`str.strip`, `str.isdigit`, `str.lower`, the `re.match` name pattern)
are modelled character by character on the Latin-1 range the name regex
admits; SQLite `INSERT OR REPLACE` is modelled by its documented
delete-then-insert semantics.
-/

namespace BotAds

/-! ## Python string primitives -/

/-- Whitespace stripped by Python `str.strip()` and matched by the regex
class `\s`, restricted to the ASCII whitespace characters
(space, tab, newline, carriage return, vertical tab, form feed).
Python additionally treats a few rare Unicode separators as whitespace;
they are not modelled. -/
def isPySpace (c : Char) : Bool :=
  c == ' ' || c == Char.ofNat 9 || c == Char.ofNat 10 ||
  c == Char.ofNat 13 || c == Char.ofNat 11 || c == Char.ofNat 12

/-- Core of Python `str.strip()` on the character list: drop whitespace
from the front, then from the back. -/
def stripL (l : List Char) : List Char :=
  (l.dropWhile isPySpace).rdropWhile isPySpace

/-- Python `str.strip()`. -/
def pyStrip (s : String) : String :=
  String.mk (stripL s.data)

/-- Characters accepted by Python `str.isdigit()`: the decimal digits
0-9 plus other Unicode digit characters, of which the Latin-1
superscripts one, two, three (U+00B9, U+00B2, U+00B3) are modelled.
Note this is strictly larger than the set of decimal digits. -/
def pyIsDigitChar (c : Char) : Bool :=
  (decide ('0' ≤ c) && decide (c ≤ '9')) || c == '¹' || c == '²' || c == '³'

/-- Python `str.isdigit()`: non-empty and all characters digit characters. -/
def pyIsDigit (s : String) : Bool :=
  decide (s.length ≠ 0) && s.data.all pyIsDigitChar

/-- Python `str.lower()` on the ASCII and Latin-1 letters (the only
characters the name pattern admits): A-Z and À-Þ (except the
multiplication sign ×) shift down by 32; everything else is unchanged. -/
def pyLowerChar (c : Char) : Char :=
  if 'A' ≤ c ∧ c ≤ 'Z' then Char.ofNat (c.toNat + 32)
  else if 'À' ≤ c ∧ c ≤ 'Þ' ∧ c ≠ '×' then Char.ofNat (c.toNat + 32)
  else c

/-- Python `str.lower()`. -/
def pyLower (s : String) : String :=
  String.mk (s.data.map pyLowerChar)

/-- Character class of the name regex `[A-Za-zÀ-ÿ\s]` in
`validate_name`: ASCII letters, the Latin-1 block À..ÿ, or whitespace. -/
def isNameChar (c : Char) : Bool :=
  (decide ('A' ≤ c) && decide (c ≤ 'Z')) ||
  (decide ('a' ≤ c) && decide (c ≤ 'z')) ||
  (decide ('À' ≤ c) && decide (c ≤ 'ÿ')) ||
  isPySpace c

/-- The anchored regex `^[A-Za-zÀ-ÿ\s]{3,50}$` from `validate_name`:
every character in the class, and between 3 and 50 characters long. -/
def matchesNameRegex (s : String) : Bool :=
  decide (3 ≤ s.length) && decide (s.length ≤ 50) && s.data.all isNameChar

/-! ## Message constants (class `Messages` and inline literals) -/

namespace Messages

def PROCESSING : String := "🤖 Processando sua dúvida com inteligência artificial..."

def NOT_REGISTERED : String := "👤 Você ainda não está cadastrado. Envie /start para iniciar o cadastro."

def RA_ALREADY_REGISTERED : String := "Este RA já está cadastrado por outro usuário. Por favor, insira um RA válido ou entre em contato com o suporte."

def REGISTRATION_SUCCESS : String := "✅ Cadastro realizado com sucesso!"

def REGISTRATION_ERROR : String := "❌ Algo deu errado no cadastro. Envie /start para reiniciar."

end Messages

/-- Inline literal in `get_ra` for a database-level registration failure. -/
def registerDbErrorMsg : String := "❌ Erro ao realizar cadastro. Tente novamente mais tarde."

/-- Inline literal sent by `ask_name`. -/
def askNameMsg : String := "Olá! Qual o seu nome?"

/-- Inline literal sent by `cancel`. -/
def cancelledMsg : String := "❌ Cadastro cancelado."

/-- Inline f-string in `get_name` prompting for the RA. -/
def askRaMsg (name : String) : String :=
  "Legal, " ++ name ++ "! Agora me diga seu RA (4 dígitos):"

/-- Inline f-string in `get_ra` greeting the freshly registered user. -/
def postRegGreeting (name : String) : String :=
  "👋 Assistente ADS - Olá " ++ name ++ "! Como posso ajudar?\n\n📌 Comandos disponíveis:\n/start - Reiniciar\n/sobre - Sobre o projeto\n/tcc - Informações do TCC"

/-! ## Validators (`validate_name`, `validate_ra`) -/

/-- The denylist `forbidden_words` in `validate_name`. -/
def forbidden_words : List String := ["oi", "olá", "ola", "teste", "admin", "bot"]

def nameTooShortMsg : String := "Nome muito curto. Digite pelo menos 3 caracteres."

def nameBadCharsMsg : String := "Nome deve conter apenas letras e espaços."

def nameForbiddenMsg : String := "Por favor, digite seu nome real."

/-- Body of `validate_name` after the initial `name.strip()`. -/
def validate_name_core (name : String) : Bool × String :=
  if name.length < 3 then (false, nameTooShortMsg)
  else if !matchesNameRegex name then (false, nameBadCharsMsg)
  else if forbidden_words.contains (pyLower name) then (false, nameForbiddenMsg)
  else (true, "")

/-- `validate_name(name)`: strips, then checks length, the regex and the
denylist in order, reporting the first violation. -/
def validate_name (name : String) : Bool × String :=
  validate_name_core (pyStrip name)

def raNotDigitsMsg : String := "RA deve conter apenas números."

def raWrongLengthMsg : String := "RA deve ter exatamente 4 dígitos."

/-- Body of `validate_ra` after the initial `ra.strip()`. -/
def validate_ra_core (ra : String) : Bool × String :=
  if !pyIsDigit ra then (false, raNotDigitsMsg)
  else if ra.length ≠ 4 then (false, raWrongLengthMsg)
  else (true, "")

/-- `validate_ra(ra)`: strips, then requires `isdigit` and length 4. -/
def validate_ra (ra : String) : Bool × String :=
  validate_ra_core (pyStrip ra)

/-! ## Database (`DatabaseManager` over the `alunos` / `interacoes` tables) -/

/-- One row of the `alunos` table: `aluno_id INTEGER PRIMARY KEY`,
`name TEXT NOT NULL`, `ra TEXT NOT NULL UNIQUE`,
`created_at DATETIME DEFAULT CURRENT_TIMESTAMP` (time as a natural). -/
structure Row where
  aluno_id : Nat
  name : String
  ra : String
  created_at : Nat
deriving DecidableEq

/-- Database contents: the `alunos` rows and the append-only
`interacoes` rows (aluno_id, data_hora). -/
structure DB where
  alunos : List Row
  interacoes : List (Nat × Nat)
deriving DecidableEq

/-- `DatabaseManager.register_user`, i.e. `INSERT OR REPLACE INTO alunos
(aluno_id, name, ra) VALUES (?, ?, ?)`.  SQLite's OR REPLACE deletes any
existing row that conflicts on the PRIMARY KEY `aluno_id` or on the
UNIQUE column `ra` and then inserts the new row, whose `created_at`
takes the default CURRENT_TIMESTAMP (`now`).  Because conflicts are
resolved by replacement, the UNIQUE-constraint exception branch of the
Python function is unreachable and the call always returns `True`. -/
def register_user (db : DB) (alunoId : Nat) (name ra : String) (now : Nat) :
    DB × Bool :=
  (⟨Row.mk alunoId name ra now ::
      db.alunos.filter (fun r => !(r.aluno_id == alunoId) && !(r.ra == ra)),
    db.interacoes⟩, true)

/-- `DatabaseManager.is_user_registered`: a row for this `aluno_id`
exists (its `ra` is NOT NULL by schema, so `result[0] is not None`
always holds for an existing row). -/
def is_user_registered (db : DB) (alunoId : Nat) : Bool :=
  db.alunos.any (fun r => r.aluno_id == alunoId)

/-- `DatabaseManager.is_ra_registered(ra, current_aluno_id)`.  The
Python guard is `if current_aluno_id:`, which is falsy both for `None`
and for the integer `0`; only a non-`None`, nonzero id is excluded from
the duplicate search. -/
def is_ra_registered (db : DB) (ra : String) (current : Option Nat) : Bool :=
  match current with
  | some i =>
    if i ≠ 0 then db.alunos.any (fun r => r.ra == ra && !(r.aluno_id == i))
    else db.alunos.any (fun r => r.ra == ra)
  | none => db.alunos.any (fun r => r.ra == ra)

/-- `DatabaseManager.register_interaction`: append one
(aluno_id, data_hora) row to `interacoes`. -/
def register_interaction (db : DB) (alunoId now : Nat) : DB :=
  ⟨db.alunos, (alunoId, now) :: db.interacoes⟩

/-! ## Session data and conversation state -/

/-- The two keys the handlers keep in `context.user_data`:
the `em_cadastro` flag (absent is modelled as `false`) and the scratch
`name` collected by `get_name` (absent is `none`). -/
structure UserData where
  em_cadastro : Bool
  name : Option String
deriving DecidableEq

/-- Conversation state of the registration `ConversationHandler`:
`NAME` and `RA` are `ConversationStates.NAME / .RA`; `END` is
`ConversationHandler.END`, i.e. no active registration (the spec's
`NONE`). -/
inductive ConvState where
  | NAME
  | RA
  | END
deriving DecidableEq

/-! ## Registration handlers -/

/-- `ask_name`: set the `em_cadastro` flag, prompt for the name, move to
the NAME state. -/
def ask_name (s : UserData) : List String × UserData × ConvState :=
  ([askNameMsg], ⟨true, s.name⟩, ConvState.NAME)

/-- `get_name`: strip the text, validate it; on failure reply with the
specific violation and stay in NAME; on success store the stripped name
and the flag in the session, prompt for the RA and move to RA. -/
def get_name (text : String) (s : UserData) :
    List String × UserData × ConvState :=
  let name := pyStrip text
  let v := validate_name name
  if v.1 then ([askRaMsg name], ⟨true, some name⟩, ConvState.RA)
  else ([v.2], s, ConvState.NAME)

/-- `get_ra`: strip and validate the RA (stay in RA on failure), reject
a duplicate RA with the dedicated message (stay in RA), fall back to a
generic error on the defensive check `if not name:` — which is falsy
both for a missing scratch name and for an empty-string one — ending
the conversation without clearing the flag (the early return skips the
`pop`), and otherwise upsert the user, clear the flag and end the
conversation. -/
def get_ra (text : String) (userId now : Nat) (s : UserData) (db : DB) :
    List String × UserData × DB × ConvState :=
  let ra := pyStrip text
  let v := validate_ra ra
  if !v.1 then ([v.2], s, db, ConvState.RA)
  else if is_ra_registered db ra (some userId) then
    ([Messages.RA_ALREADY_REGISTERED], s, db, ConvState.RA)
  else
    match s.name with
    | none => ([Messages.REGISTRATION_ERROR], s, db, ConvState.END)
    | some name =>
      if name = "" then ([Messages.REGISTRATION_ERROR], s, db, ConvState.END)
      else
        let res := register_user db userId name ra now
        if res.2 then
          ([Messages.REGISTRATION_SUCCESS, postRegGreeting name],
           ⟨false, s.name⟩, res.1, ConvState.END)
        else
          ([registerDbErrorMsg], ⟨false, s.name⟩, res.1, ConvState.END)

/-- `cancel`: pop the `em_cadastro` flag (the scratch `name` key is not
popped) and end the conversation. -/
def cancel (s : UserData) : List String × UserData × ConvState :=
  ([cancelledMsg], ⟨false, s.name⟩, ConvState.END)

/-! ## AI completion client (`AIManager.get_response`) -/

/-- Outcome of one HTTP attempt, as discriminated by the `except`
clauses of `get_response`: a timeout, a non-2xx status
(`raise_for_status` raising `HTTPStatusError`), a connection-level
`RequestError`, some other unexpected exception, or a 2xx response with
a parsed JSON body.  The body is `none` when the `choices` key is
missing, and otherwise the list of candidates, each `none` when its
`message`/`content` path is missing (raising `KeyError`/`TypeError`). -/
inductive TransportOutcome where
  | timeout
  | statusError (code : Nat)
  | requestError (msg : String)
  | otherExc (msg : String)
  | success (body : Option (List (Option String)))

def aiInvalidMsg : String := "❌ Resposta inválida da IA."

def aiParseErrorMsg : String := "❌ Erro ao processar resposta da IA."

def aiTimeoutMsg : String := "⏱️ Timeout na IA. Tente uma pergunta mais simples."

def aiUnavailableMsg : String := "❌ A IA está indisponível no momento. Tente novamente mais tarde."

def aiConnErrorMsg : String := "❌ Erro de conexão com a IA. Verifique sua internet ou tente mais tarde."

def aiUnexpectedMsg (e : String) : String :=
  "❌ Erro inesperado ao acessar a IA: " ++ e

/-- Result of `get_response`: the returned string (`none` models the
Python function falling off the loop and returning `None`, which can
only happen when `max_retries = 0`), the number of attempts performed,
and the list of backoff sleeps in seconds, in order. -/
structure AIResult where
  reply : Option String
  attempts : Nat
  sleeps : List Nat
deriving DecidableEq

/-- The `for attempt in range(max_retries)` loop of `get_response`.
`t attempt` is the transport's outcome of the given attempt; `rem` is
the number of loop iterations left.  A well-formed success returns the
first candidate; a missing or empty (falsy) `choices` list returns the
invalid-response literal with no retry; a malformed first candidate hits
the `KeyError/IndexError/TypeError` handler, also with no retry.
Timeout, bad status, connection errors and unexpected exceptions return
their literal on the last attempt and otherwise sleep `2 ^ attempt`
seconds and retry. -/
def getRespLoop (t : Nat → TransportOutcome) (maxRetries : Nat) :
    Nat → Nat → AIResult
  | _, 0 => ⟨none, 0, []⟩
  | attempt, rem + 1 =>
    match t attempt with
    | .success none => ⟨some aiInvalidMsg, 1, []⟩
    | .success (some []) => ⟨some aiInvalidMsg, 1, []⟩
    | .success (some (none :: _)) => ⟨some aiParseErrorMsg, 1, []⟩
    | .success (some (some content :: _)) => ⟨some content, 1, []⟩
    | .timeout =>
      if attempt == maxRetries - 1 then ⟨some aiTimeoutMsg, 1, []⟩
      else
        let r := getRespLoop t maxRetries (attempt + 1) rem
        ⟨r.reply, r.attempts + 1, 2 ^ attempt :: r.sleeps⟩
    | .statusError _ =>
      if attempt == maxRetries - 1 then ⟨some aiUnavailableMsg, 1, []⟩
      else
        let r := getRespLoop t maxRetries (attempt + 1) rem
        ⟨r.reply, r.attempts + 1, 2 ^ attempt :: r.sleeps⟩
    | .requestError _ =>
      if attempt == maxRetries - 1 then ⟨some aiConnErrorMsg, 1, []⟩
      else
        let r := getRespLoop t maxRetries (attempt + 1) rem
        ⟨r.reply, r.attempts + 1, 2 ^ attempt :: r.sleeps⟩
    | .otherExc e =>
      if attempt == maxRetries - 1 then ⟨some (aiUnexpectedMsg e), 1, []⟩
      else
        let r := getRespLoop t maxRetries (attempt + 1) rem
        ⟨r.reply, r.attempts + 1, 2 ^ attempt :: r.sleeps⟩

/-- `AIManager.get_response(prompt, max_retries)`.  The transport `t`
maps the prompt and the attempt number to that attempt's outcome (the
fixed payload, headers, model and system prompt do not influence the
control flow modelled here). -/
def get_response (prompt : String) (t : String → Nat → TransportOutcome)
    (maxRetries : Nat) : AIResult :=
  getRespLoop (t prompt) maxRetries 0 maxRetries

/-! ## General message handler (`handle_message`) -/

/-- Observable outcome of `handle_message`: replies sent, resulting
database, and whether `ai_manager.get_response` was invoked. -/
structure HandleResult where
  replies : List String
  db : DB
  aiCalled : Bool
deriving DecidableEq

/-- `handle_message`: silently drop the message while `em_cadastro` is
set; prompt unregistered users to /start; otherwise log the interaction,
send the processing notice, query the AI with the stripped text and
relay its answer. -/
def handle_message (text : String) (userId now : Nat) (s : UserData)
    (db : DB) (t : String → Nat → TransportOutcome) : HandleResult :=
  if s.em_cadastro then ⟨[], db, false⟩
  else if !is_user_registered db userId then ⟨[Messages.NOT_REGISTERED], db, false⟩
  else
    let userMsg := pyStrip text
    let db2 := register_interaction db userId now
    let resp := (get_response userMsg t 3).reply.getD "None"
    ⟨[Messages.PROCESSING, resp ++ "\n\n📚 Espero ter ajudado!"], db2, true⟩

/-! ## Claim predicates -/

/-- Validity predicate of the name form exactly as the code enforces
it: the regex character class throughout, length between 3 and 50, and
not in the denylist after lowercasing. -/
def goodName (t : String) : Bool :=
  decide (3 ≤ t.length) && decide (t.length ≤ 50) && t.data.all isNameChar
    && !(forbidden_words.contains (pyLower t))

/-- Modelled from the spec's words: a name is valid iff it matches
`^[A-Za-z<accented-letters>\s]{3,}$` — no upper length bound — and is
not in the denylist.  Compare `goodName`, translated from the code,
which additionally caps the length at 50. -/
def specNameOk (t : String) : Bool :=
  decide (3 ≤ t.length) && t.data.all isNameChar
    && !(forbidden_words.contains (pyLower t))

/-- A decimal digit 0-9: the spec's notion of digit for the RA, a
strict subset of what Python `str.isdigit()` accepts. -/
def isDecimalDigit (c : Char) : Bool :=
  decide ('0' ≤ c) && decide (c ≤ '9')

/-! ## Helper lemmas -/

theorem stripL_idem (l : List Char) : stripL (stripL l) = stripL l := by
  unfold stripL
  have hself : ((l.dropWhile isPySpace).rdropWhile isPySpace).dropWhile isPySpace
      = (l.dropWhile isPySpace).rdropWhile isPySpace := by
    rcases List.rdropWhile_prefix isPySpace (l.dropWhile isPySpace) with ⟨tl, htl⟩
    cases hR : (l.dropWhile isPySpace).rdropWhile isPySpace with
    | nil => rfl
    | cons r R' =>
      have hA : l.dropWhile isPySpace = r :: (R' ++ tl) := by
        rw [← htl, hR]; rfl
      have hw : isPySpace r = false := by
        have hh := List.head?_dropWhile_not isPySpace l
        rw [hA] at hh
        simpa using hh
      simp [List.dropWhile_cons, hw]
  rw [hself, List.rdropWhile_idempotent]

theorem pyStrip_idem (s : String) : pyStrip (pyStrip s) = pyStrip s := by
  unfold pyStrip
  exact congrArg String.mk (stripL_idem s.data)

theorem validate_name_strip (t : String) :
    validate_name (pyStrip t) = validate_name t := by
  unfold validate_name
  rw [pyStrip_idem]

theorem validate_ra_strip (t : String) :
    validate_ra (pyStrip t) = validate_ra t := by
  unfold validate_ra
  rw [pyStrip_idem]

theorem validate_name_core_valid (t : String) :
    (validate_name_core t).1 = goodName t := by
  unfold validate_name_core goodName matchesNameRegex
  by_cases h3 : t.length < 3
  · have h3' : ¬ 3 ≤ t.length := by omega
    simp [h3, h3']
  · have h3' : 3 ≤ t.length := by omega
    by_cases h50 : t.length ≤ 50
    · by_cases hall : t.data.all isNameChar = true
      · by_cases hf : pyLower t ∈ forbidden_words
        · simp [h3, h3', h50, hall, hf]
        · simp [h3, h3', h50, hall, hf]
      · simp [h3, h3', h50, hall]
    · simp [h3, h3', h50]

theorem validate_name_core_err (t : String)
    (h : (validate_name_core t).1 = false) :
    (validate_name_core t).2 ∈ [nameTooShortMsg, nameBadCharsMsg, nameForbiddenMsg] := by
  unfold validate_name_core at *
  by_cases h3 : t.length < 3
  · simp [h3]
  · by_cases hre : matchesNameRegex t = true
    · by_cases hf : pyLower t ∈ forbidden_words
      · simp [h3, hre, hf]
      · simp [h3, hre, hf] at h
    · simp [h3, hre]

theorem validate_ra_core_valid (t : String) :
    (validate_ra_core t).1 = (pyIsDigit t && t.length == 4) := by
  unfold validate_ra_core
  by_cases hd : pyIsDigit t = true
  · by_cases h4 : t.length = 4
    · simp [hd, h4]
    · simp [hd, h4]
  · simp [hd]

theorem validate_name_ne_empty (t : String)
    (h : (validate_name t).1 = true) : t ≠ "" := by
  intro he
  rw [he] at h
  exact absurd h (by decide)

theorem validate_ra_core_err (t : String)
    (h : (validate_ra_core t).1 = false) :
    (validate_ra_core t).2 ∈ [raNotDigitsMsg, raWrongLengthMsg] := by
  unfold validate_ra_core at *
  by_cases hd : pyIsDigit t = true
  · by_cases h4 : t.length = 4
    · simp [hd, h4] at h
    · simp [hd, h4]
  · simp [hd]

theorem getRespLoop_returns (t : Nat → TransportOutcome) (m : Nat) :
    ∀ rem attempt, attempt + rem = m → 1 ≤ rem →
      ((getRespLoop t m attempt rem).reply).isSome = true := by
  intro rem
  induction rem with
  | zero => intro attempt _ h2; omega
  | succ n ih =>
    intro attempt hsum _
    rw [getRespLoop]
    cases ht : t attempt with
    | success body =>
      match body with
      | none => simp
      | some [] => simp
      | some (none :: _) => simp
      | some (some c :: _) => simp
    | timeout =>
      cases hl : (attempt == m - 1) with
      | true => simp
      | false =>
        have hne : attempt ≠ m - 1 := by simpa using hl
        have h1 : 1 ≤ n := by omega
        simpa using ih (attempt + 1) (by omega) h1
    | statusError code =>
      cases hl : (attempt == m - 1) with
      | true => simp
      | false =>
        have hne : attempt ≠ m - 1 := by simpa using hl
        have h1 : 1 ≤ n := by omega
        simpa using ih (attempt + 1) (by omega) h1
    | requestError msg =>
      cases hl : (attempt == m - 1) with
      | true => simp
      | false =>
        have hne : attempt ≠ m - 1 := by simpa using hl
        have h1 : 1 ≤ n := by omega
        simpa using ih (attempt + 1) (by omega) h1
    | otherExc msg =>
      cases hl : (attempt == m - 1) with
      | true => simp
      | false =>
        have hne : attempt ≠ m - 1 := by simpa using hl
        have h1 : 1 ≤ n := by omega
        simpa using ih (attempt + 1) (by omega) h1

/-! ## Claim theorems -/

/-- C2: if every attempt times out, `get_response` (`complete`) makes
exactly 3 attempts, sleeps 2^0 = 1 second after the first and 2^1 = 2
seconds after the second, sleeps no further after the third, and
returns the literal timeout message instead of raising. -/
theorem all_timeouts_three_attempts_literal_message
    (prompt : String) (t : String → Nat → TransportOutcome)
    (h : ∀ n, t prompt n = TransportOutcome.timeout) :
    get_response prompt t 3 = ⟨some aiTimeoutMsg, 3, [1, 2]⟩ := by
  unfold get_response
  rw [getRespLoop, h 0]
  norm_num
  rw [getRespLoop, h 1]
  norm_num
  rw [getRespLoop, h 2]
  norm_num

/-- C2 witness: the always-timing-out transport. -/
theorem all_timeouts_three_attempts_literal_message_witness :
    get_response ("ola") (fun _ _ => TransportOutcome.timeout) 3
      = ⟨some aiTimeoutMsg, 3, [1, 2]⟩ :=
  all_timeouts_three_attempts_literal_message ("ola")
    (fun _ _ => TransportOutcome.timeout) (fun _ => rfl)

/-- C5: a 2xx response whose body lacks a non-empty `choices` list
(missing key, as with body `{}`, or an empty list) makes `get_response`
return the malformed-response literal after exactly one attempt, with
no retry and no sleep. -/
theorem malformed_body_no_retry
    (prompt : String) (t : String → Nat → TransportOutcome)
    (h : t prompt 0 = TransportOutcome.success none
       ∨ t prompt 0 = TransportOutcome.success (some [])) :
    get_response prompt t 3 = ⟨some aiInvalidMsg, 1, []⟩ := by
  unfold get_response
  rcases h with h | h <;> (rw [getRespLoop, h])

/-- C5 witness: a transport answering 200 with body `{}`. -/
theorem malformed_body_no_retry_witness :
    get_response ("ola") (fun _ _ => TransportOutcome.success none) 3
      = ⟨some aiInvalidMsg, 1, []⟩ :=
  malformed_body_no_retry ("ola")
    (fun _ _ => TransportOutcome.success none) (Or.inl rfl)

/-- C8: whatever the transport does on each of the attempts — timeout,
connection error, bad status, malformed body, unexpected exception or
success — `get_response` returns a displayable string (never `none`,
which models an exception escaping / a missing return). -/
theorem get_response_always_returns_string
    (prompt : String) (t : String → Nat → TransportOutcome) :
    ((get_response prompt t 3).reply).isSome = true :=
  getRespLoop_returns (t prompt) 3 3 0 rfl (by omega)

/-- C10: while the `em_cadastro` flag is set, `handle_message` drops the
text silently: no reply, no interaction row, no AI call, database
untouched. -/
theorem in_registration_message_dropped
    (text : String) (userId now : Nat) (s : UserData) (db : DB)
    (t : String → Nat → TransportOutcome) (h : s.em_cadastro = true) :
    handle_message text userId now s db t = ⟨[], db, false⟩ := by
  unfold handle_message
  rw [h]
  simp

/-- C10 witness: a concrete in-registration session. -/
theorem in_registration_message_dropped_witness :
    handle_message ("oi") 1 0 ⟨true, none⟩ ⟨[], []⟩
      (fun _ _ => TransportOutcome.timeout) = ⟨[], ⟨[], []⟩, false⟩ :=
  in_registration_message_dropped ("oi") 1 0 ⟨true, none⟩ ⟨[], []⟩
    (fun _ _ => TransportOutcome.timeout) rfl

/-- C3 counterexample: a 51-letter name satisfies the claim's validity
predicate (letters only, length at least 3, not denylisted, no upper
bound), yet `get_name` rejects it — the code's regex `{3,50}` caps the
length at 50 — and the dialogue stays in NAME. -/
theorem fifty_one_letter_name_rejected :
    specNameOk (String.mk (List.replicate 51 'a')) = true
    ∧ pyStrip (String.mk (List.replicate 51 'a')) = String.mk (List.replicate 51 'a')
    ∧ get_name (String.mk (List.replicate 51 'a')) ⟨true, none⟩
        = ([nameBadCharsMsg], ⟨true, none⟩, ConvState.NAME) := by
  decide

/-- C3 (amended): a trimmed input of class characters with length
between 3 and 50 (the code caps at 50) that is not denylisted makes
`submit_name` succeed, store the trimmed name and move to AWAITING_CODE;
every other input leaves the session and the NAME state unchanged and
reports the specific violation. -/
theorem submit_name_valid_iff
    (text : String) (s : UserData) :
    (goodName (pyStrip text) = true →
      get_name text s
        = ([askRaMsg (pyStrip text)], ⟨true, some (pyStrip text)⟩, ConvState.RA))
    ∧ (goodName (pyStrip text) = false →
      get_name text s = ([(validate_name text).2], s, ConvState.NAME)
      ∧ (validate_name text).2 ∈ [nameTooShortMsg, nameBadCharsMsg, nameForbiddenMsg]) := by
  have hval : validate_name (pyStrip text) = validate_name text :=
    validate_name_strip text
  have h1 : (validate_name text).1 = goodName (pyStrip text) :=
    validate_name_core_valid (pyStrip text)
  constructor
  · intro hg
    unfold get_name
    dsimp only
    rw [hval]
    rw [show (validate_name text).1 = true from h1.trans hg]
    simp
  · intro hg
    have hfalse : (validate_name text).1 = false := h1.trans hg
    refine ⟨?_, validate_name_core_err (pyStrip text) hfalse⟩
    unfold get_name
    dsimp only
    rw [hval, hfalse]
    simp

/-- C3 witness: a padded two-word name is accepted and stored trimmed. -/
theorem submit_name_valid_iff_witness :
    get_name ("  Maria Silva  ") ⟨false, none⟩
      = ([askRaMsg (pyStrip ("  Maria Silva  "))],
         ⟨true, some (pyStrip ("  Maria Silva  "))⟩, ConvState.RA) :=
  (submit_name_valid_iff ("  Maria Silva  ") ⟨false, none⟩).1 (by decide)

/-- C4 counterexample: cancelling a registration that already collected
a name does not clear the scratch name, and it is still present after a
subsequent begin() — session scratch state is not all cleared and data
from the cancelled attempt is left over. -/
theorem cancel_keeps_scratch_name :
    ((cancel ⟨true, some ("Maria Silva")⟩).2.1).name = some ("Maria Silva")
    ∧ ((ask_name (cancel ⟨true, some ("Maria Silva")⟩).2.1).2.1).name
        = some ("Maria Silva") := by
  decide

/-- C4 (amended): `cancel()` from any state returns the dialogue to
NONE and clears the in-registration flag, but the scratch name is kept;
a subsequent begin() starts in AWAITING_NAME, and the first accepted
name overwrites the retained one before it can be used. -/
theorem cancel_resets_state
    (s : UserData) (text : String)
    (h : (validate_name text).1 = true) :
    cancel s = ([cancelledMsg], ⟨false, s.name⟩, ConvState.END)
    ∧ ask_name (cancel s).2.1 = ([askNameMsg], ⟨true, s.name⟩, ConvState.NAME)
    ∧ (get_name text (ask_name (cancel s).2.1).2.1).2.1
        = ⟨true, some (pyStrip text)⟩ := by
  refine ⟨rfl, rfl, ?_⟩
  unfold get_name
  dsimp only
  rw [validate_name_strip, h]
  simp

/-- C4 witness: cancel from AWAITING_CODE, then re-enter with a fresh
name. -/
theorem cancel_resets_state_witness :
    cancel ⟨true, some ("Maria Silva")⟩
      = ([cancelledMsg], ⟨false, some ("Maria Silva")⟩, ConvState.END)
    ∧ ask_name (cancel ⟨true, some ("Maria Silva")⟩).2.1
      = ([askNameMsg], ⟨true, some ("Maria Silva")⟩, ConvState.NAME)
    ∧ (get_name ("Carlos Souza")
        (ask_name (cancel ⟨true, some ("Maria Silva")⟩).2.1).2.1).2.1
      = ⟨true, some (pyStrip ("Carlos Souza"))⟩ :=
  cancel_resets_state ⟨true, some ("Maria Silva")⟩ ("Carlos Souza") (by decide)

/-- C6 counterexample: "123²" is not a string of four decimal digits,
but Python `str.isdigit()` accepts the superscript two, so validation
passes and `submit_code` registers the user instead of failing. -/
theorem superscript_code_registered :
    (("123²").data.all isDecimalDigit) = false
    ∧ pyStrip ("123²") = "123²"
    ∧ get_ra ("123²") 7 50 ⟨true, some ("Maria Silva")⟩ ⟨[], []⟩
        = ([Messages.REGISTRATION_SUCCESS, postRegGreeting ("Maria Silva")],
           ⟨false, some ("Maria Silva")⟩,
           ⟨[⟨7, "Maria Silva", "123²", 50⟩], []⟩, ConvState.END) := by
  decide

/-- C6 (amended): an input whose trimmed form is not a 4-character
string of Python digit characters (`str.isdigit`, a superset of the
decimal digits) makes `submit_code` fail with the specific message, the
dialogue stays in AWAITING_CODE and the database is unchanged — no user
record is written. -/
theorem submit_code_invalid_rejected
    (text : String) (userId now : Nat) (s : UserData) (db : DB)
    (h : ¬ (pyIsDigit (pyStrip text) = true ∧ (pyStrip text).length = 4)) :
    get_ra text userId now s db = ([(validate_ra text).2], s, db, ConvState.RA)
    ∧ (validate_ra text).2 ∈ [raNotDigitsMsg, raWrongLengthMsg] := by
  have hfalse : (validate_ra text).1 = false := by
    rw [show (validate_ra text).1 = (pyIsDigit (pyStrip text) && (pyStrip text).length == 4)
        from validate_ra_core_valid (pyStrip text)]
    by_cases hd : pyIsDigit (pyStrip text) = true
    · have h4 : (pyStrip text).length ≠ 4 := fun hc => h ⟨hd, hc⟩
      simp [hd, h4]
    · simp [hd]
  refine ⟨?_, validate_ra_core_err (pyStrip text) hfalse⟩
  unfold get_ra
  dsimp only
  rw [validate_ra_strip, hfalse]
  simp

/-- C6 witness: a code with a letter is rejected and nothing is
written. -/
theorem submit_code_invalid_rejected_witness :
    get_ra ("12a4") 7 50 ⟨true, some ("Maria Silva")⟩ ⟨[], []⟩
      = ([(validate_ra ("12a4")).2], ⟨true, some ("Maria Silva")⟩, ⟨[], []⟩, ConvState.RA)
    ∧ (validate_ra ("12a4")).2 ∈ [raNotDigitsMsg, raWrongLengthMsg] :=
  submit_code_invalid_rejected ("12a4") 7 50 ⟨true, some ("Maria Silva")⟩ ⟨[], []⟩
    (by decide)

/-- C1: once some user A owns RA "1234", any distinct user B in
AWAITING_CODE — that is, with a scratch name that passed `get_name`'s
validation — submitting "1234" gets the dedicated already-registered
message, distinct from both generic registration failures, and stays in
AWAITING_CODE with the session and the database untouched; B can then
submit any valid RA owned by nobody and complete registration. -/
theorem duplicate_ra_rejected_fresh_code_succeeds
    (db : DB) (A B now now2 : Nat) (s : UserData) (nm c : String)
    (hAB : A ≠ B)
    (hA : ∃ r ∈ db.alunos, r.aluno_id = A ∧ r.ra = "1234")
    (hname : s.name = some nm)
    (hnm : (validate_name nm).1 = true)
    (hc : (validate_ra c).1 = true)
    (hfresh : ∀ r ∈ db.alunos, r.ra ≠ pyStrip c) :
    get_ra ("1234") B now s db
      = ([Messages.RA_ALREADY_REGISTERED], s, db, ConvState.RA)
    ∧ Messages.RA_ALREADY_REGISTERED ≠ Messages.REGISTRATION_ERROR
    ∧ Messages.RA_ALREADY_REGISTERED ≠ registerDbErrorMsg
    ∧ get_ra c B now2 s db
      = ([Messages.REGISTRATION_SUCCESS, postRegGreeting nm],
         ⟨false, s.name⟩, (register_user db B nm (pyStrip c) now2).1, ConvState.END)
    ∧ is_user_registered (register_user db B nm (pyStrip c) now2).1 B = true := by
  obtain ⟨r0, hr0mem, hr0id, hr0ra⟩ := hA
  have hdup : is_ra_registered db (pyStrip ("1234")) (some B) = true := by
    rw [show pyStrip ("1234") = "1234" from by decide]
    unfold is_ra_registered
    rcases Nat.eq_zero_or_pos B with hB | hB
    · subst hB
      simp only [ne_eq, not_true_eq_false, if_false, List.any_eq_true]
      exact ⟨r0, hr0mem, by simp [hr0ra]⟩
    · have hBne : B ≠ 0 := by omega
      simp only [ne_eq, hBne, not_false_eq_true, if_true, List.any_eq_true]
      refine ⟨r0, hr0mem, ?_⟩
      have : r0.aluno_id ≠ B := by rw [hr0id]; exact hAB
      simp [hr0ra, this]
  have hnodup : is_ra_registered db (pyStrip c) (some B) = false := by
    unfold is_ra_registered
    rcases Nat.eq_zero_or_pos B with hB | hB
    · subst hB
      simp only [ne_eq, not_true_eq_false, if_false, List.any_eq_false]
      intro r hr
      simp [hfresh r hr]
    · have hBne : B ≠ 0 := by omega
      simp only [ne_eq, hBne, not_false_eq_true, if_true, List.any_eq_false]
      intro r hr
      simp [hfresh r hr]
  refine ⟨?_, by decide, by decide, ?_, ?_⟩
  · unfold get_ra
    dsimp only
    rw [show validate_ra (pyStrip ("1234")) = (true, "") from by decide, hdup]
    simp
  · have hne : nm ≠ "" := validate_name_ne_empty nm hnm
    unfold get_ra
    dsimp only
    rw [validate_ra_strip, hc, hnodup, hname]
    simp [hne, register_user]
  · simp [is_user_registered, register_user]

/-- C1 witness: Alice owns "1234"; Bruno is rejected on "1234" and then
registers "5678". -/
theorem duplicate_ra_rejected_fresh_code_succeeds_witness :
    get_ra ("1234") 2 20 ⟨true, some ("Bruno Braga")⟩
        ⟨[⟨1, "Alice Alves", "1234", 10⟩], []⟩
      = ([Messages.RA_ALREADY_REGISTERED], ⟨true, some ("Bruno Braga")⟩,
         ⟨[⟨1, "Alice Alves", "1234", 10⟩], []⟩, ConvState.RA)
    ∧ Messages.RA_ALREADY_REGISTERED ≠ Messages.REGISTRATION_ERROR
    ∧ Messages.RA_ALREADY_REGISTERED ≠ registerDbErrorMsg
    ∧ get_ra ("5678") 2 30 ⟨true, some ("Bruno Braga")⟩
        ⟨[⟨1, "Alice Alves", "1234", 10⟩], []⟩
      = ([Messages.REGISTRATION_SUCCESS, postRegGreeting ("Bruno Braga")],
         ⟨false, some ("Bruno Braga")⟩,
         (register_user ⟨[⟨1, "Alice Alves", "1234", 10⟩], []⟩ 2 ("Bruno Braga")
           (pyStrip ("5678")) 30).1, ConvState.END)
    ∧ is_user_registered
        (register_user ⟨[⟨1, "Alice Alves", "1234", 10⟩], []⟩ 2 ("Bruno Braga")
          (pyStrip ("5678")) 30).1 2 = true :=
  duplicate_ra_rejected_fresh_code_succeeds
    ⟨[⟨1, "Alice Alves", "1234", 10⟩], []⟩ 1 2 20 30
    ⟨true, some ("Bruno Braga")⟩ ("Bruno Braga") ("5678")
    (by decide) (by decide) rfl (by decide) (by decide) (by decide)

/-- C7 counterexample: for the user with identifier 0 the Python guard
`if current_aluno_id:` is falsy, so the self-exclusion branch of the
uniqueness check is skipped; the user's own row triggers the duplicate
error and re-registration with the same code "1234" fails instead of
succeeding. -/
theorem zero_id_self_reregistration_fails :
    get_ra ("1234") 0 7 ⟨true, some ("Novo Nome")⟩
        ⟨[⟨0, "Velho Nome", "1234", 5⟩], []⟩
      = ([Messages.RA_ALREADY_REGISTERED], ⟨true, some ("Novo Nome")⟩,
         ⟨[⟨0, "Velho Nome", "1234", 5⟩], []⟩, ConvState.RA) := by
  decide

/-- C7 (amended): for every user with a nonzero identifier that alone
owns "1234", re-running the flow with a new valid name — one accepted
by `validate_name`, hence in particular non-empty, so the defensive
`if not name:` check passes — and the same code succeeds: the
uniqueness check skips the user's own record, and the record now
carries the new name with code "1234". -/
theorem self_reregistration_succeeds
    (db : DB) (A now : Nat) (s : UserData) (nm : String)
    (hA0 : A ≠ 0)
    (hname : s.name = some nm)
    (hnm : (validate_name nm).1 = true)
    (hown : ∀ r ∈ db.alunos, r.ra = "1234" → r.aluno_id = A) :
    get_ra ("1234") A now s db
      = ([Messages.REGISTRATION_SUCCESS, postRegGreeting nm],
         ⟨false, s.name⟩, (register_user db A nm ("1234") now).1, ConvState.END)
    ∧ ∃ r ∈ (register_user db A nm ("1234") now).1.alunos,
        r.aluno_id = A ∧ r.name = nm ∧ r.ra = "1234" := by
  have hps : pyStrip ("1234") = "1234" := by decide
  have hval : validate_ra ("1234") = (true, "") := by decide
  have hnodup : is_ra_registered db ("1234") (some A) = false := by
    unfold is_ra_registered
    simp only [ne_eq, hA0, not_false_eq_true, if_true, List.any_eq_false]
    intro r hr
    by_cases hra : r.ra = "1234"
    · have := hown r hr hra
      simp [hra, this]
    · simp [hra]
  have hne : nm ≠ "" := validate_name_ne_empty nm hnm
  constructor
  · unfold get_ra
    dsimp only
    rw [hps, hval, hnodup, hname]
    simp [hne, register_user]
  · exact ⟨Row.mk A nm "1234" now, by simp [register_user], rfl, rfl, rfl⟩

/-- C7 witness: user 5 re-registers with a new name and the same code,
with an unrelated user present. -/
theorem self_reregistration_succeeds_witness :
    get_ra ("1234") 5 200 ⟨true, some ("Nome Novo")⟩
        ⟨[⟨5, "Nome Antigo", "1234", 100⟩, ⟨6, "Outra Pessoa", "9999", 50⟩], []⟩
      = ([Messages.REGISTRATION_SUCCESS, postRegGreeting ("Nome Novo")],
         ⟨false, some ("Nome Novo")⟩,
         (register_user ⟨[⟨5, "Nome Antigo", "1234", 100⟩, ⟨6, "Outra Pessoa", "9999", 50⟩], []⟩
           5 ("Nome Novo") ("1234") 200).1, ConvState.END)
    ∧ ∃ r ∈ (register_user ⟨[⟨5, "Nome Antigo", "1234", 100⟩, ⟨6, "Outra Pessoa", "9999", 50⟩], []⟩
          5 ("Nome Novo") ("1234") 200).1.alunos,
        r.aluno_id = 5 ∧ r.name = "Nome Novo" ∧ r.ra = "1234" :=
  self_reregistration_succeeds
    ⟨[⟨5, "Nome Antigo", "1234", 100⟩, ⟨6, "Outra Pessoa", "9999", 50⟩], []⟩
    5 200 ⟨true, some ("Nome Novo")⟩ ("Nome Novo")
    (by decide) rfl (by decide) (by decide)

/-- C9 counterexample: user 5 registered at time 100 re-registers at
time 200 with the same code; INSERT OR REPLACE deletes and re-inserts
the row, so `created_at` becomes 200 — the registration timestamp is
not preserved by the upsert. -/
theorem upsert_resets_created_at :
    (register_user ⟨[⟨5, "Nome Antigo", "1234", 100⟩], []⟩ 5 ("Nome Novo") ("1234") 200).1.alunos
      = [⟨5, "Nome Novo", "1234", 200⟩]
    ∧ (200 : Nat) ≠ 100 := by
  decide

/-- C9 (amended): as long as the new code is owned by no other user
(which the flow's duplicate check guarantees), the upsert yields
exactly: a fresh row for this user with the new name and code — its
`created_at` reset to the upsert time — with every other user's row
kept unchanged, and reports success. -/
theorem upsert_preserves_other_rows
    (db : DB) (uid now : Nat) (nm ra : String)
    (hown : ∀ r ∈ db.alunos, r.ra = ra → r.aluno_id = uid) :
    (register_user db uid nm ra now).1.alunos
      = Row.mk uid nm ra now :: db.alunos.filter (fun r => !(r.aluno_id == uid))
    ∧ (register_user db uid nm ra now).1.interacoes = db.interacoes
    ∧ (register_user db uid nm ra now).2 = true := by
  refine ⟨?_, rfl, rfl⟩
  unfold register_user
  dsimp only
  congr 1
  apply List.filter_congr
  intro r hr
  by_cases hid : r.aluno_id = uid
  · simp [hid]
  · have hra : r.ra ≠ ra := fun hc => hid (hown r hr hc)
    simp [hid, hra]

/-- C9 witness: the upsert for user 5 keeps user 6's row unchanged. -/
theorem upsert_preserves_other_rows_witness :
    (register_user ⟨[⟨5, "Nome Antigo", "1234", 100⟩, ⟨6, "Outra Pessoa", "9999", 50⟩], []⟩
        5 ("Nome Novo") ("1234") 200).1.alunos
      = Row.mk 5 ("Nome Novo") ("1234") 200 ::
        List.filter (fun r => !(r.aluno_id == 5))
          [⟨5, "Nome Antigo", "1234", 100⟩, ⟨6, "Outra Pessoa", "9999", 50⟩]
    ∧ (register_user ⟨[⟨5, "Nome Antigo", "1234", 100⟩, ⟨6, "Outra Pessoa", "9999", 50⟩], []⟩
        5 ("Nome Novo") ("1234") 200).1.interacoes = []
    ∧ (register_user ⟨[⟨5, "Nome Antigo", "1234", 100⟩, ⟨6, "Outra Pessoa", "9999", 50⟩], []⟩
        5 ("Nome Novo") ("1234") 200).2 = true :=
  upsert_preserves_other_rows
    ⟨[⟨5, "Nome Antigo", "1234", 100⟩, ⟨6, "Outra Pessoa", "9999", 50⟩], []⟩
    5 200 ("Nome Novo") ("1234") (by decide)

end BotAds
